import Mathlib

/-!
Shallow embedding of the beneills/matrix library: a generic 2x2 matrix type
and a 2-component column-vector type (src/lib.rs), plus the catalogue of
constant linear transforms (src/linear_transforms.rs).

Rust generic bounds `T: Mul<Output=T>` / `T: Add<Output=T>` become Lean
instance arguments `[Mul T]` / `[Add T]`.  Each Rust operator impl becomes a
named Lean function (`mulScalar`, `mulVector`, `mulMatrix`, `addMatrix`,
`addVector`).  `Display` impls become functions taking an element renderer
`T -> String` standing for the element type's own Display instance.
-/

namespace MatrixLib

/-- Represents a 2x2 matrix with entries of type T, stored as [[a, b], [c, d]]
(src/lib.rs, struct Matrix). -/
@[ext] structure Matrix (T : Type) where
  a : T
  b : T
  c : T
  d : T
  deriving DecidableEq

/-- Represents a 2-vector with entries of type T, stored as transpose([x, y])
(src/lib.rs, struct Vector). -/
@[ext] structure Vector (T : Type) where
  x : T
  y : T
  deriving DecidableEq

/-- Matrix::new (src/lib.rs). -/
def Matrix.new {T : Type} (a b c d : T) : Matrix T :=
  ⟨a, b, c, d⟩

/-- Vector::new (src/lib.rs). -/
def Vector.new {T : Type} (x y : T) : Vector T :=
  ⟨x, y⟩

/-- Matrix::from_vectors (src/lib.rs): builds Matrix::new(left.x, right.x, left.y, right.y). -/
def Matrix.from_vectors {T : Type} (left right : Vector T) : Matrix T :=
  Matrix.new left.x right.x left.y right.y

/-- Matrix::scale (src/lib.rs): each entry becomes factor * entry. -/
def Matrix.scale {T : Type} [Mul T] (self : Matrix T) (factor : T) : Matrix T :=
  Matrix.new (factor * self.a) (factor * self.b) (factor * self.c) (factor * self.d)

/-- Matrix::transpose (src/lib.rs): Matrix::new(a, c, b, d). -/
def Matrix.transpose {T : Type} (self : Matrix T) : Matrix T :=
  Matrix.new self.a self.c self.b self.d

/-- Matrix::left (src/lib.rs): the column Vector::new(a, c). -/
def Matrix.left {T : Type} (self : Matrix T) : Vector T :=
  Vector.new self.a self.c

/-- Matrix::right (src/lib.rs): the column Vector::new(b, d). -/
def Matrix.right {T : Type} (self : Matrix T) : Vector T :=
  Vector.new self.b self.d

/-- Vector::scale (src/lib.rs): each component becomes factor * component. -/
def Vector.scale {T : Type} [Mul T] (self : Vector T) (factor : T) : Vector T :=
  Vector.new (factor * self.x) (factor * self.y)

/-- Impl Add of Matrix + Matrix (src/lib.rs): componentwise sum. -/
def Matrix.addMatrix {T : Type} [Add T] (self rhs : Matrix T) : Matrix T :=
  Matrix.new (self.a + rhs.a) (self.b + rhs.b) (self.c + rhs.c) (self.d + rhs.d)

/-- Impl Add of Vector + Vector (src/lib.rs): componentwise sum. -/
def Vector.addVector {T : Type} [Add T] (self rhs : Vector T) : Vector T :=
  Vector.new (self.x + rhs.x) (self.y + rhs.y)

/-- Impl Mul of Matrix * Scalar (src/lib.rs): each entry becomes rhs * entry. -/
def Matrix.mulScalar {T : Type} [Mul T] (self : Matrix T) (rhs : T) : Matrix T :=
  Matrix.new (rhs * self.a) (rhs * self.b) (rhs * self.c) (rhs * self.d)

/-- Impl Mul of Matrix * Vector (src/lib.rs):
Vector::new(a * rhs.x + b * rhs.y, c * rhs.x + d * rhs.y). -/
def Matrix.mulVector {T : Type} [Mul T] [Add T] (self : Matrix T) (rhs : Vector T) : Vector T :=
  Vector.new (self.a * rhs.x + self.b * rhs.y) (self.c * rhs.x + self.d * rhs.y)

/-- Impl Mul of Matrix * Matrix (src/lib.rs): the standard 2x2 product with the
exact operand order of the source. -/
def Matrix.mulMatrix {T : Type} [Mul T] [Add T] (self rhs : Matrix T) : Matrix T :=
  Matrix.new
    (self.a * rhs.a + self.b * rhs.c)
    (self.a * rhs.b + self.b * rhs.d)
    (self.c * rhs.a + self.d * rhs.c)
    (self.c * rhs.b + self.d * rhs.d)

/-- Impl Mul of Vector * Scalar (src/lib.rs): each component becomes rhs * component. -/
def Vector.mulScalar {T : Type} [Mul T] (self : Vector T) (rhs : T) : Vector T :=
  Vector.new (rhs * self.x) (rhs * self.y)

/-- Impl Display for Matrix (src/lib.rs): the format string is
"[[{} {}], [{} {}]]" applied to a, b, c, d; toStr stands for T's Display. -/
def Matrix.display {T : Type} (toStr : T → String) (self : Matrix T) : String :=
  "[[" ++ toStr self.a ++ " " ++ toStr self.b ++ "], [" ++
    toStr self.c ++ " " ++ toStr self.d ++ "]]"

/-- Impl Display for Vector (src/lib.rs): the format string is
"[{} {}]^t" applied to x, y; toStr stands for T's Display. -/
def Vector.display {T : Type} (toStr : T → String) (self : Vector T) : String :=
  "[" ++ toStr self.x ++ " " ++ toStr self.y ++ "]^t"

/-- IDENTITY constant (src/linear_transforms.rs).  The catalogue's element type
is i32; it is embedded as Int, faithful here because every product formed in
the catalogue theorems only multiplies by 0 and plus or minus 1, so i32
overflow cannot occur. -/
def IDENTITY : Matrix Int :=
  ⟨1, 0, 0, 1⟩

/-- ROTATE_90 constant (src/linear_transforms.rs). -/
def ROTATE_90 : Matrix Int :=
  ⟨0, -1, 1, 0⟩

/-- ROTATE_180 constant (src/linear_transforms.rs). -/
def ROTATE_180 : Matrix Int :=
  ⟨-1, 0, 0, -1⟩

/-- ROTATE_270 constant (src/linear_transforms.rs). -/
def ROTATE_270 : Matrix Int :=
  ⟨0, 1, -1, 0⟩

/-- FLIP_X constant (src/linear_transforms.rs). -/
def FLIP_X : Matrix Int :=
  ⟨-1, 0, 0, 1⟩

/-- FLIP_Y constant (src/linear_transforms.rs). -/
def FLIP_Y : Matrix Int :=
  ⟨1, 0, 0, -1⟩

/-- Fixed-width 32-bit integers with wrapping arithmetic (the release-mode
semantics of Rust i32/u32), embedded as integers modulo 2 to the 32. -/
abbrev I32 : Type := ZMod (2 ^ 32)

/-- C1: for every element type T with Mul and Add, the product of matrices
(a1,b1,c1,d1) and (a2,b2,c2,d2) has entries a1*a2 + b1*c2, a1*b2 + b1*d2,
c1*a2 + d1*c2 and c1*b2 + d1*d2, each combined in the source's left-to-right
operand order. -/
theorem mulMatrix_entries (T : Type) [Mul T] [Add T] (m1 m2 : Matrix T) :
    (m1.mulMatrix m2).a = m1.a * m2.a + m1.b * m2.c ∧
    (m1.mulMatrix m2).b = m1.a * m2.b + m1.b * m2.d ∧
    (m1.mulMatrix m2).c = m1.c * m2.a + m1.d * m2.c ∧
    (m1.mulMatrix m2).d = m1.c * m2.b + m1.d * m2.d :=
  ⟨rfl, rfl, rfl, rfl⟩

/-- C2: for every element type T with Mul and Add, matrix (a,b,c,d) times
vector v is the vector with x = a*v.x + b*v.y and y = c*v.x + d*v.y. -/
theorem mulVector_entries (T : Type) [Mul T] [Add T] (m : Matrix T) (v : Vector T) :
    (m.mulVector v).x = m.a * v.x + m.b * v.y ∧
    (m.mulVector v).y = m.c * v.x + m.d * v.y :=
  ⟨rfl, rfl⟩

/-- C3: from_vectors and the left/right column decomposition are exact mutual
inverses: from_vectors(m.left(), m.right()) = m for every matrix m, and
from_vectors(l, r).left() = l and .right() = r for all vectors l, r. -/
theorem from_vectors_round_trip (T : Type) (m : Matrix T) (l r : Vector T) :
    Matrix.from_vectors m.left m.right = m ∧
    (Matrix.from_vectors l r).left = l ∧
    (Matrix.from_vectors l r).right = r :=
  ⟨rfl, rfl, rfl⟩

/-- C4: for every element type T with Mul, every matrix m, vector v and scalar
k, the scale method and the scalar * operator compute the same function:
m.scale(k) = m * k and v.scale(k) = v * k. -/
theorem scale_eq_mulScalar (T : Type) [Mul T] (m : Matrix T) (v : Vector T) (k : T) :
    m.scale k = m.mulScalar k ∧ v.scale k = v.mulScalar k :=
  ⟨rfl, rfl⟩

/-- C5: transpose is an involution: m.transpose().transpose() = m for every
matrix m over any element type. -/
theorem transpose_involution (T : Type) (m : Matrix T) :
    m.transpose.transpose = m :=
  rfl

/-- C6: over fixed-width integers (wrapping 32-bit arithmetic), matrix-matrix
multiplication is associative, and it is not commutative in general. -/
theorem mulMatrix_assoc_not_comm :
    (∀ m1 m2 m3 : Matrix I32,
        (m1.mulMatrix m2).mulMatrix m3 = m1.mulMatrix (m2.mulMatrix m3)) ∧
    (∃ m1 m2 : Matrix I32, m1.mulMatrix m2 ≠ m2.mulMatrix m1) := by
  constructor
  · intro m1 m2 m3
    ext <;> simp only [Matrix.mulMatrix, Matrix.new] <;> ring
  · exact ⟨⟨0, 1, 0, 0⟩, ⟨0, 0, 1, 0⟩, by decide⟩

/-- C7: the catalogue constants satisfy IDENTITY * v = v for every integer
vector v, ROTATE_90 * ROTATE_270 = IDENTITY, FLIP_X * FLIP_X = IDENTITY and
FLIP_Y * FLIP_Y = IDENTITY. -/
theorem catalogue_identities :
    (∀ v : Vector Int, IDENTITY.mulVector v = v) ∧
    ROTATE_90.mulMatrix ROTATE_270 = IDENTITY ∧
    FLIP_X.mulMatrix FLIP_X = IDENTITY ∧
    FLIP_Y.mulMatrix FLIP_Y = IDENTITY := by
  refine ⟨fun v => ?_, by decide, by decide, by decide⟩
  ext <;> simp [Matrix.mulVector, IDENTITY, Vector.new]

/-- C8: the Display rendering of a vector (x, y) is exactly the string
"[x y]^t" and that of a matrix (a, b, c, d) is exactly "[[a b], [c d]]",
for any rendering of the components; checked concretely as well. -/
theorem display_format :
    (∀ (T : Type) (s : T → String) (v : Vector T),
        v.display s = "[" ++ s v.x ++ " " ++ s v.y ++ "]^t") ∧
    (∀ (T : Type) (s : T → String) (m : Matrix T),
        m.display s = "[[" ++ s m.a ++ " " ++ s m.b ++ "], [" ++
          s m.c ++ " " ++ s m.d ++ "]]") ∧
    (Vector.new (1 : Nat) 2).display toString = "[1 2]^t" ∧
    (Matrix.new (1 : Nat) 2 3 4).display toString = "[[1 2], [3 4]]" :=
  ⟨fun _ _ _ => rfl, fun _ _ _ => rfl, by decide, by decide⟩

/-- C9 counterexample: there is NO element type, commutative or not, on which
scale and the scalar * operator disagree -- both multiply the scalar on the
left, so the claimed divergence on a non-commutative type is impossible. -/
theorem scale_operator_never_diverge :
    ¬ ∃ (T : Type) (inst : Mul T),
      (∃ (m : Matrix T) (k : T),
          @Matrix.scale T inst m k ≠ @Matrix.mulScalar T inst m k) ∨
      (∃ (v : Vector T) (k : T),
          @Vector.scale T inst v k ≠ @Vector.mulScalar T inst v k) := by
  rintro ⟨T, inst, ⟨m, k, hm⟩ | ⟨v, k, hv⟩⟩
  · exact hm rfl
  · exact hv rfl

/-- C9 amended: the scale method and the scalar * operator use the SAME
multiplication argument order -- both place the scalar on the left
(factor * component and rhs * component) -- so they are behaviorally
identical for every element type, non-commutative ones included. -/
theorem scale_operator_same_order (T : Type) [Mul T] (m : Matrix T) (v : Vector T) (k : T) :
    (m.scale k).a = k * m.a ∧ (m.mulScalar k).a = k * m.a ∧
    (v.scale k).x = k * v.x ∧ (v.mulScalar k).x = k * v.x ∧
    m.scale k = m.mulScalar k ∧ v.scale k = v.mulScalar k :=
  ⟨rfl, rfl, rfl, rfl, rfl, rfl⟩

/-- C10: IDENTITY is a two-sided identity for matrix-matrix multiplication
over the integers: IDENTITY * m = m and m * IDENTITY = m for every matrix m. -/
theorem IDENTITY_two_sided (m : Matrix Int) :
    IDENTITY.mulMatrix m = m ∧ m.mulMatrix IDENTITY = m := by
  constructor <;> ext <;> simp [Matrix.mulMatrix, IDENTITY, Matrix.new]

end MatrixLib
